import Mathlib

/-!
Verification development for the AI-driven Playwright automation repository.

The development shallowly embeds the core of the repository:
  * the rule-based code normalizer of `ai_core/ai_agent.py`
    (`remove_async_tokens`, `fix_try_with_healing_signature`,
    `sanitize_assertions`, `validate_final_code`), including a faithful
    character-level implementation of each `re.sub` call it performs;
  * the self-healing wrapper of `ai_core/ai_self_heal.py`
    (`heal_locator`, `try_with_healing`) as explicit state passing over a
    persisted locator cache, with instrumentation recording the underlying
    action calls and suggestion-source round trips;
  * the DOM fallback resolver `fallback_locator_list` of `ai_core/ai_agent.py`;
  * the generated-source replay check `AIAgent.generate_source_if_missing`.

Python strings are modelled as Lean `String` / `List Char`; Python regular
expression substitutions are modelled by dedicated matcher functions, one per
pattern, run by a left-to-right leftmost-match scanner (`pySub`) that mirrors
`re.sub` semantics for the specific patterns of the source (all of which are
deterministic up to the lazy `(.+?)` groups, implemented by shortest-first
search).  Character classes are interpreted over ASCII, which covers every
literal the source manipulates.
-/

/-! ## Character-level helpers and the `re.sub` scanner -/

/-- ASCII word characters, the class `[A-Za-z0-9_]` used throughout the
source's regexes. -/
def isAsciiWord (c : Char) : Bool :=
  ('A' ≤ c && c ≤ 'Z') || ('a' ≤ c && c ≤ 'z') || ('0' ≤ c && c ≤ '9') || c = '_'

/-- ASCII letters and underscore, the class `[A-Za-z_]`. -/
def isAsciiAlphaUnd (c : Char) : Bool :=
  ('A' ≤ c && c ≤ 'Z') || ('a' ≤ c && c ≤ 'z') || c = '_'

/-- Python's `\s` class (ASCII part): space, tab, newline, carriage return,
vertical tab, form feed. -/
def isPySpace (c : Char) : Bool :=
  c = ' ' || c = '\t' || c = '\n' || c = '\r' || c = '\x0b' || c = '\x0c'

/-- A quote character, the class `['\"]`. -/
def isQuote (c : Char) : Bool := c = '\'' || c = '"'

/-- Strip Python-`str.strip()` style whitespace from both ends of a
character list. -/
def pyStripList (l : List Char) : List Char :=
  ((l.dropWhile isPySpace).reverse.dropWhile isPySpace).reverse

/-- Python `str.strip()` on a string. -/
def pyStrip (s : String) : String := String.mk (pyStripList s.data)

/-- Match a literal list of characters, returning the rest of the input. -/
def lit : List Char → List Char → Option (List Char)
  | [], s => some s
  | _ :: _, [] => none
  | c :: cs, d :: ds => if c = d then lit cs ds else none

/-- Match a literal string, returning the rest of the input. -/
def litS (pat : String) (s : List Char) : Option (List Char) := lit pat.data s

/-- Python `str.startswith(pre)`. -/
def pyStartsWith (s pre : String) : Bool := (lit pre.data s.data).isSome

/-- Python slicing `s[:n]`. -/
def pyTake (s : String) (n : Nat) : String := String.mk (s.data.take n)

/-- Greedily consume `\s*`. -/
def wsStar (s : List Char) : List Char := s.dropWhile isPySpace

/-- Greedily consume `\s+` (at least one whitespace character). -/
def wsPlus (s : List Char) : Option (List Char) :=
  match s with
  | c :: cs => if isPySpace c then some (wsStar cs) else none
  | [] => none

/-- Greedily consume a nonempty run of characters satisfying `p`,
returning the captured run and the rest (a `[class]+` atom followed in the
pattern by a character outside the class, so greedy matching is exact). -/
def runPlus (p : Char → Bool) (s : List Char) : Option (List Char × List Char) :=
  match s with
  | c :: cs => if p c then some (c :: cs.takeWhile p, cs.dropWhile p) else none
  | [] => none

/-- Consume one quote character (`['\"]`). -/
def pQuote : List Char → Option (List Char)
  | c :: cs => if isQuote c then some cs else none
  | [] => none

/-- Lazy `(.+?)` search: captures the shortest nonempty prefix after which
the continuation pattern `cont` matches.  `allowNL` selects `re.DOTALL`
behaviour; without it `.` does not match a newline.  This is exactly the
backtracking order of a lazy group followed by a deterministic tail. -/
def lazyScan (allowNL : Bool) (cont : List Char → Option (List Char)) :
    List Char → Option (List Char × List Char)
  | [] => none
  | c :: cs =>
    if !allowNL && c = '\n' then none
    else
      match cont cs with
      | some rest => some ([c], rest)
      | none =>
        match lazyScan allowNL cont cs with
        | some (g, rest) => some (c :: g, rest)
        | none => none

/-- A single-pattern matcher: given the character preceding the current
position (`none` at the start of the string, used for `^` in MULTILINE mode
and `\b`) and the input at the current position, produce the replacement
text and the unconsumed rest on a match.  Every matcher in this file
consumes at least one character when it succeeds. -/
def Matcher : Type :=
  Option Char → List Char → Option (List Char × List Char)

/-- The `re.sub` scanner: walk the string left to right; at each position
try the matcher; on success emit the replacement, resume scanning after the
matched text (tracking the last matched character of the original string as
the new left context); otherwise copy one character.  Fuel is the input
length, which suffices because every match consumes at least one
character. -/
def rewriteAllAux (m : Matcher) : Option Char → List Char → Nat → List Char
  | _, s, 0 => s
  | _, [], _ + 1 => []
  | prev, c :: cs, fuel + 1 =>
    match m prev (c :: cs) with
    | some (rep, rest) =>
      let consumed := (c :: cs).length - rest.length
      let lastC :=
        match ((c :: cs).take consumed).getLast? with
        | some d => some d
        | none => prev
      rep ++ rewriteAllAux m lastC rest fuel
    | none => c :: rewriteAllAux m (some c) cs fuel

/-- `re.sub(pattern, repl, s)` for one of this file's matchers. -/
def pySub (m : Matcher) (s : String) : String :=
  String.mk (rewriteAllAux m none s.data (s.data.length + 1))

/-! ## Normalizer: port of the sanitizers in `ai_core/ai_agent.py` -/

/-- `ALLOWED_ASSERTIONS` of `ai_agent.py` (lines 28-36). -/
def ALLOWED_ASSERTIONS : List String :=
  ["to_be_visible", "to_have_count", "to_have_text", "to_contain_text",
   "to_have_url", "to_have_title", "to_be_hidden"]

/-- `\bawait\s+` / `\basync\s+` (with empty replacement): a word boundary,
the keyword, then at least one whitespace character. -/
def matchKwWs (kw : String) : Matcher := fun prev s =>
  if (match prev with | none => true | some c => !isAsciiWord c) then
    match litS kw s with
    | some r1 =>
      match wsPlus r1 with
      | some rest => some ([], rest)
      | none => none
    | none => none
  else none

/-- `remove_async_tokens` (`ai_agent.py` lines 38-42): strip `await`/`async`
tokens, `await` first. -/
def remove_async_tokens (code : String) : String :=
  pySub (matchKwWs "async") (pySub (matchKwWs "await") code)

/-- First pattern of `fix_try_with_healing_signature`:
`try_with_healing\s*\(\s*page\s*,\s*(page\.[A-Za-z_0-9]+)` rewritten to
`try_with_healing(model, page, \1`. -/
def matchTrySig1 : Matcher := fun _ s =>
  (litS "try_with_healing" s).bind fun r1 =>
  (litS "(" (wsStar r1)).bind fun r2 =>
  (litS "page" (wsStar r2)).bind fun r3 =>
  (litS "," (wsStar r3)).bind fun r4 =>
  (litS "page." (wsStar r4)).bind fun r5 =>
  (runPlus isAsciiWord r5).bind fun pr =>
  some (("try_with_healing(model, page, page.").data ++ pr.1, pr.2)

/-- Second pattern of `fix_try_with_healing_signature`:
`try_with_healing\s*\(\s*(page\.[A-Za-z_0-9]+)\s*,` rewritten to
`try_with_healing(model, page, \1,`. -/
def matchTrySig2 : Matcher := fun _ s =>
  (litS "try_with_healing" s).bind fun r1 =>
  (litS "(" (wsStar r1)).bind fun r2 =>
  (litS "page." (wsStar r2)).bind fun r3 =>
  (runPlus isAsciiWord r3).bind fun pr =>
  (litS "," (wsStar pr.2)).bind fun rest =>
  some (("try_with_healing(model, page, page.").data ++ pr.1 ++ [','], rest)

/-- `fix_try_with_healing_signature` (`ai_agent.py` lines 77-98). -/
def fix_try_with_healing_signature (code : String) : String :=
  pySub matchTrySig2 (pySub matchTrySig1 code)

/-- Decimal digits to a natural number (Python `int` of a `\d+` capture). -/
def digitsToNat (ds : List Char) : Nat :=
  ds.foldl (fun n c => n * 10 + (c.toNat - 48)) 0

/-- `to_have_count_greater_than\s*\(\s*(\d+)\s*\)` rewritten to
`to_have_count(max(1, n))`, the first `ASSERTION_REPLACEMENTS` entry. -/
def matchCountGreater : Matcher := fun _ s =>
  (litS "to_have_count_greater_than" s).bind fun r1 =>
  (litS "(" (wsStar r1)).bind fun r2 =>
  (runPlus Char.isDigit (wsStar r2)).bind fun pr =>
  (litS ")" (wsStar pr.2)).bind fun rest =>
  some (("to_have_count(" ++ toString (max 1 (digitsToNat pr.1)) ++ ")").data, rest)

/-- `to_have_more_than\s*\(\s*(\d+)\s*\)` rewritten the same way, the second
`ASSERTION_REPLACEMENTS` entry. -/
def matchMoreThan : Matcher := fun _ s =>
  (litS "to_have_more_than" s).bind fun r1 =>
  (litS "(" (wsStar r1)).bind fun r2 =>
  (runPlus Char.isDigit (wsStar r2)).bind fun pr =>
  (litS ")" (wsStar pr.2)).bind fun rest =>
  some (("to_have_count(" ++ toString (max 1 (digitsToNat pr.1)) ++ ")").data, rest)

/-- `to_be_non_empty\s*\(\s*\)` rewritten to `to_have_count(1)`. -/
def matchNonEmpty : Matcher := fun _ s =>
  (litS "to_be_non_empty" s).bind fun r1 =>
  (litS "(" (wsStar r1)).bind fun r2 =>
  (litS ")" (wsStar r2)).bind fun rest =>
  some (("to_have_count(1)").data, rest)

/-- `to_exist\s*\(\s*\)` rewritten to `to_be_visible()`. -/
def matchExist : Matcher := fun _ s =>
  (litS "to_exist" s).bind fun r1 =>
  (litS "(" (wsStar r1)).bind fun r2 =>
  (litS ")" (wsStar r2)).bind fun rest =>
  some (("to_be_visible()").data, rest)

/-- `_check_unknown` of `sanitize_assertions` (`ai_agent.py` lines 52-60):
keep allowed assertion names, collapse unknown `to_`-names to
`to_be_visible`, leave anything else unchanged. -/
def checkUnknown (name : String) : String :=
  if ALLOWED_ASSERTIONS.contains name then name
  else if pyStartsWith name "to_" then "to_be_visible"
  else name

/-- `\.(to_[a-zA-Z_0-9]+)\s*\(` with replacement `.{_check_unknown(m)}(`
(`ai_agent.py` line 62). -/
def matchDotTo : Matcher := fun _ s =>
  (litS ".to_" s).bind fun r1 =>
  (runPlus isAsciiWord r1).bind fun pr =>
  (litS "(" (wsStar pr.2)).bind fun rest =>
  some (("." ++ checkUnknown ("to_" ++ String.mk pr.1) ++ "(").data, rest)

/-- `expect\(page\.locator\((.+?)\)\)\.to_be_visible\((.+?)\)` rewritten to
`expect(page.locator(\1)).to_be_visible()` (`ai_agent.py` lines 63-66). -/
def matchExpectVisibleArgs : Matcher := fun _ s =>
  (litS "expect(page.locator(" s).bind fun r1 =>
  (lazyScan false (fun t =>
      (litS ")).to_be_visible(" t).bind fun r2 =>
      (lazyScan false (fun u => litS ")" u) r2).map fun q => q.2) r1).bind fun gr =>
  some (("expect(page.locator(" ++ String.mk gr.1 ++ ")).to_be_visible()").data, gr.2)

/-- `to_be_visible\(['\"]placeholder['\"],\s*['\"](.+?)['\"]\)` rewritten to
`to_have_attribute("placeholder", "\1")` (`ai_agent.py` lines 67-70). -/
def matchPlaceholder : Matcher := fun _ s =>
  (litS "to_be_visible(" s).bind fun r1 =>
  (pQuote r1).bind fun r2 =>
  (litS "placeholder" r2).bind fun r3 =>
  (pQuote r3).bind fun r4 =>
  (litS "," r4).bind fun r5 =>
  (pQuote (wsStar r5)).bind fun r6 =>
  (lazyScan false (fun t => (pQuote t).bind fun u => litS ")" u) r6).bind fun gr =>
  some (("to_have_attribute(\"placeholder\", \"" ++ String.mk gr.1 ++ "\")").data, gr.2)

/-- `expect\((.+?)\)\.to_have_count\(lambda.+?\)` rewritten to
`assert \1.count() > 0` (`ai_agent.py` lines 71-74). -/
def matchLambdaCount : Matcher := fun _ s =>
  (litS "expect(" s).bind fun r1 =>
  (lazyScan false (fun t =>
      (litS ").to_have_count(lambda" t).bind fun r2 =>
      (lazyScan false (fun u => litS ")" u) r2).map fun q => q.2) r1).bind fun gr =>
  some (("assert " ++ String.mk gr.1 ++ ".count() > 0").data, gr.2)

/-- `sanitize_assertions` (`ai_agent.py` lines 44-75): the four
`ASSERTION_REPLACEMENTS` substitutions in dictionary order, then the
unknown-name collapse, the visibility-argument strip, the placeholder
rewrite and the lambda-count rewrite. -/
def sanitize_assertions (code : String) : String :=
  let c1 := pySub matchCountGreater code
  let c2 := pySub matchMoreThan c1
  let c3 := pySub matchNonEmpty c2
  let c4 := pySub matchExist c3
  let c5 := pySub matchDotTo c4
  let c6 := pySub matchExpectVisibleArgs c5
  let c7 := pySub matchPlaceholder c6
  pySub matchLambdaCount c7

/-- Escape one character of a Python `repr` body (printable-ASCII subset of
CPython's algorithm: backslash, the chosen delimiter and the control
characters `\n`, `\r`, `\t` are escaped, everything else copied). -/
def pyReprEscape (delim : Char) : List Char → List Char
  | [] => []
  | c :: cs =>
    (if c = '\\' then ['\\', '\\']
     else if c = delim then ['\\', delim]
     else if c = '\n' then ['\\', 'n']
     else if c = '\r' then ['\\', 'r']
     else if c = '\t' then ['\\', 't']
     else [c]) ++ pyReprEscape delim cs

/-- Python `repr` of a string (printable-ASCII subset): single-quote
delimiter unless the string contains a single quote and no double quote. -/
def pyRepr (cs : List Char) : List Char :=
  let delim := if cs.contains '\'' && !cs.contains '"' then '"' else '\''
  delim :: (pyReprEscape delim cs ++ [delim])

/-- Alternation `(to_be_visible|to_have_count|to_have_text)`, tried left to
right. -/
def pAltName (s : List Char) : Option (String × List Char) :=
  match litS "to_be_visible" s with
  | some r => some ("to_be_visible", r)
  | none =>
    match litS "to_have_count" s with
    | some r => some ("to_have_count", r)
    | none =>
      match litS "to_have_text" s with
      | some r => some ("to_have_text", r)
      | none => none

/-- `page\.\s*(to_be_visible|to_have_count|to_have_text)\s*\(\s*([\"'])(.+?)\2\s*\)`
with `re.DOTALL`, rewritten via Python `repr` of the quoted selector
(`ai_agent.py` lines 114-123). -/
def matchPageDot : Matcher := fun _ s =>
  (litS "page." s).bind fun r1 =>
  (pAltName (wsStar r1)).bind fun nr =>
  (litS "(" (wsStar nr.2)).bind fun r3 =>
  match wsStar r3 with
  | [] => none
  | q :: r4 =>
    if isQuote q then
      (lazyScan true (fun t =>
          match t with
          | [] => none
          | c :: u => if c = q then litS ")" (wsStar u) else none) r4).bind fun gr =>
      let inner := pyRepr (q :: (gr.1 ++ [q]))
      if nr.1 = "to_be_visible" then
        some (("expect(page.locator(").data ++ inner ++ (")).to_be_visible()").data, gr.2)
      else
        some (("expect(page.locator(").data ++ inner ++ (")).to_have_count(1)").data, gr.2)
    else none

/-- Test for the MULTILINE `^` anchor: start of string or just after a
newline. -/
def lineStart : Option Char → Bool
  | none => true
  | some c => c = '\n'

/-- `^[A-Za-z_][A-Za-z0-9_]*\s*=\s*expect\([^\)]+\)\.[^\n]+` (MULTILINE)
with replacement `m.group(0).split("=", 1)[1].strip()` (`ai_agent.py`
lines 126-131). -/
def matchAssignExpect : Matcher := fun prev s =>
  if lineStart prev then
    match s with
    | [] => none
    | c :: cs =>
      if isAsciiAlphaUnd c then
        (litS "=" (wsStar (cs.dropWhile isAsciiWord))).bind fun r2 =>
        (litS "expect(" (wsStar r2)).bind fun r3 =>
        (runPlus (fun d => d ≠ ')') r3).bind fun pr =>
        (litS ")." pr.2).bind fun r4 =>
        (runPlus (fun d => d ≠ '\n') r4).bind fun tr =>
        let consumed := s.length - tr.2.length
        let matched := s.take consumed
        let afterEq := (matched.dropWhile (fun d => d ≠ '=')).drop 1
        some (pyStripList afterEq, tr.2)
      else none
  else none

/-- Index of the last character of `l` that is not a newline. -/
def lastNonNLIdx (l : List Char) : Option Nat :=
  match l.reverse.findIdx? (fun c => c ≠ '\n') with
  | some j => some (l.length - 1 - j)
  | none => none

/-- `^\s*(import|from)\s+[^\n]+` (MULTILINE) with empty replacement
(`ai_agent.py` line 134).  The leading `\s*` and the `\s+` may cross
newlines; when the string ends inside the whitespace run after the keyword,
the greedy `\s+` backtracks minimally so that `[^\n]+` can still match a
final non-newline whitespace character. -/
def matchImportFrom : Matcher := fun prev s =>
  if lineStart prev then
    let r1 := s.dropWhile isPySpace
    let kw :=
      match litS "import" r1 with
      | some r => some r
      | none => litS "from" r1
    match kw with
    | none => none
    | some r2 =>
      let run2 := r2.takeWhile isPySpace
      let r3 := r2.dropWhile isPySpace
      if run2.length = 0 then none
      else
        match r3 with
        | _ :: _ => some ([], r3.dropWhile (fun d => d ≠ '\n'))
        | [] =>
          match lastNonNLIdx run2 with
          | some i => if 1 ≤ i then some ([], run2.drop (i + 1)) else none
          | none => none
  else none

/-- `validate_final_code` (`ai_agent.py` lines 100-136): the final
sanitization pipeline — async/await removal, `try_with_healing` signature
fixes, `sanitize_assertions`, the DOTALL `page.<assertion>("sel")`
conversion, the assignment strip and the import strip, in that order. -/
def validate_final_code (code : String) : String :=
  let c1 := remove_async_tokens code
  let c2 := fix_try_with_healing_signature c1
  let c3 := sanitize_assertions c2
  let c4 := pySub matchPageDot c3
  let c5 := pySub matchAssignExpect c4
  pySub matchImportFrom c5

/-- All assertion names applied in the source text: occurrences of
`.to_<word>+` followed (after optional whitespace) by `(` — the same shape
the sanitizer's own collapse rule recognises. -/
def appliedAssertionNames : List Char → List String
  | [] => []
  | c :: cs =>
    if c = '.' then
      match (litS "to_" cs).bind (fun r1 =>
          (runPlus isAsciiWord r1).bind (fun pr =>
            (litS "(" (wsStar pr.2)).map (fun _ => pr.1))) with
      | some w => ("to_" ++ String.mk w) :: appliedAssertionNames cs
      | none => appliedAssertionNames cs
    else appliedAssertionNames cs

/-- `appliedAssertionNames` on a string. -/
def appliedAssertionNamesStr (s : String) : List String :=
  appliedAssertionNames s.data

/-! ## Self-healing wrapper: port of `ai_core/ai_self_heal.py`

The wrapper's collaborators are modelled explicitly:

  * `PWObject` stands for the Python objects passed as `model` and `page`.
    `hasLocator` models `hasattr(obj, "locator")`; `contentResult` models
    `page.content()` (`none` means the call raises); `generate` models the
    suggestion source: the final response text obtained from
    `model.generate_content(prompt)` via `getattr(resp, "text", "") or
    str(resp)`, with `none` meaning the call raises; `query` models
    `page.locator(sel).all_text_contents()` (`Except.error` means the call
    raises).
  * `ActionCap` is the underlying action capability (`action_func`):
    `callable` models Python `callable`; `call` receives the index of the
    call within the current invocation (so a stateful page can be
    modelled) and the positional argument list.  Arguments are restricted
    to strings, which covers all locator/URL call sites of the source;
    keyword arguments are not modelled.
  * Exceptions are values of `PyErr`: `playwright` is
    `playwright.sync_api.Error` (the locator-resolution class caught by
    `except PlaywrightError`), `other` is every other exception class and
    `valueError` the `ValueError` raised for a non-callable action.
  * The persisted JSON cache is the association list `cache` (most recent
    write first, which is how `load_cache()[k]` resolves after
    `cache[k] = v`); `HealResult` carries the final outcome, the cache
    after the invocation, the argument lists of all underlying action
    calls in order, and the failing locators passed to `heal_locator`
    (each entry is one suggestion-source round trip).  Logging and the
    append-only audit file are not modelled.
-/

/-- Exception classes distinguished by `try_with_healing`. -/
inductive PyErr where
  | playwright (msg : String)
  | other (msg : String)
  | valueError (msg : String)
deriving DecidableEq, Repr

/-- A Python collaborator object (model or page), see the section header. -/
structure PWObject where
  hasLocator : Bool
  contentResult : Option String
  generate : String → Option String
  query : String → Except PyErr (List String)

/-- The underlying action capability (`action_func`). -/
structure ActionCap where
  callable : Bool
  name : String
  call : Nat → List String → Except PyErr String

/-- Result of one `try_with_healing` invocation. -/
structure HealResult where
  outcome : Except PyErr String
  cache : List (String × String)
  actionCalls : List (List String)
  healCalls : List String
deriving Repr

/-- `MAX_HEAL_RETRIES` of `ai_self_heal.py` (line 9). -/
def MAX_HEAL_RETRIES : Nat := 2

/-- The prompt built by `heal_locator` (`ai_self_heal.py` lines 46-55). -/
def heal_prompt (failedLocator action contextHtml : String) : String :=
  "\n            You are an expert Playwright automation engineer.\n            A locator failed during automation:\n            - Action: " ++ action ++ "\n            - Locator: \"" ++ failedLocator ++ "\"\n            Below is a snippet of the page HTML (truncated):\n            " ++ contextHtml ++ "\n            \n            Suggest one best CSS or XPath selector (only the selector string in plain text). Do NOT include markdown or code fences.\n            "

/-- The matcher for Python `str.replace("\x60\x60\x60", "")`: remove every
occurrence of a triple backtick (left to right, non-overlapping, the same
order `str.replace` uses). -/
def matchBackticks : Matcher := fun _ s =>
  (litS "```" s).map fun rest => ([], rest)

/-- Remove all triple backticks from a string. -/
def removeBackticks (s : String) : String := pySub matchBackticks s

/-- `heal_locator` (`ai_self_heal.py` lines 40-65): ask the suggestion
source for a replacement selector with the page HTML truncated to 4000
characters; a raising suggestion source (`generate = none`) is caught and
yields `none`; the response is stripped, its code fences (triple
backticks) removed and stripped again; an empty result yields `none`.  The `page` argument is
accepted but unused, exactly as in the source. -/
def heal_locator (page : PWObject) (failedLocator action contextHtml : String)
    (model : PWObject) : Option String :=
  match model.generate (heal_prompt failedLocator action (pyTake contextHtml 4000)) with
  | none => none
  | some raw =>
    let newLocator := pyStrip (removeBackticks (pyStrip raw))
    if newLocator = "" then none else some newLocator

/-- The defensive swap at the top of `try_with_healing` (`ai_self_heal.py`
lines 79-83): if `model` looks like a page and `page` does not, swap
them. -/
def swapIfNeeded (model page : PWObject) : PWObject × PWObject :=
  if model.hasLocator && !page.hasLocator then (page, model) else (model, page)

/-- The inner healed-retry loop of `try_with_healing` (`ai_self_heal.py`
lines 145-152): `while heal_try < MAX_HEAL_RETRIES`, call the action with
the healed locator; a success or a non-Playwright exception ends the
invocation (`some` outcome); a Playwright error consumes one retry.
Returns the pending outcome (`none` means the loop exhausted its retries)
together with the argument lists of the calls made. -/
def healedRetryLoop (cap : ActionCap) (newLocator : String) (remaining : List String)
    (startIdx : Nat) : Nat → Option (Except PyErr String) × List (List String)
  | 0 => (none, [])
  | n + 1 =>
    match cap.call startIdx (newLocator :: remaining) with
    | Except.ok v => (some (Except.ok v), [newLocator :: remaining])
    | Except.error (PyErr.playwright _) =>
      let r := healedRetryLoop cap newLocator remaining (startIdx + 1) n
      (r.1, (newLocator :: remaining) :: r.2)
    | Except.error e => (some (Except.error e), [newLocator :: remaining])

/-- The locator-based branch of `try_with_healing` (`ai_self_heal.py`
lines 117-156), after cache resolution, with `locator` already the
cache-resolved locator.  The Python `while attempt <= retries` loop runs
its body exactly once for any `retries ≥ 0`: every path of the body
returns or raises (success returns; a non-Playwright exception is not
caught; in the `except PlaywrightError` block, no suggestion or an
identical suggestion re-raises the original error, and after caching a new
suggestion the healed-retry loop either returns, propagates a
non-Playwright error, or the original error is re-raised).  The function
therefore ports that single iteration. -/
def attemptWithHeal (model page : PWObject) (cap : ActionCap)
    (locator : String) (restArgs : List String)
    (cache0 : List (String × String)) : HealResult :=
  match cap.call 0 (locator :: restArgs) with
  | Except.ok v =>
    { outcome := Except.ok v, cache := cache0,
      actionCalls := [locator :: restArgs], healCalls := [] }
  | Except.error (PyErr.playwright msg) =>
    match heal_locator page locator cap.name ((page.contentResult).getD "") model with
    | none =>
      { outcome := Except.error (PyErr.playwright msg), cache := cache0,
        actionCalls := [locator :: restArgs], healCalls := [locator] }
    | some newLocator =>
      if newLocator = locator then
        { outcome := Except.error (PyErr.playwright msg), cache := cache0,
          actionCalls := [locator :: restArgs], healCalls := [locator] }
      else
        { outcome :=
            match (healedRetryLoop cap newLocator restArgs 1 MAX_HEAL_RETRIES).1 with
            | some out => out
            | none => Except.error (PyErr.playwright msg),
          cache := (locator, newLocator) :: cache0,
          actionCalls :=
            (locator :: restArgs) ::
              (healedRetryLoop cap newLocator restArgs 1 MAX_HEAL_RETRIES).2,
          healCalls := [locator] }
  | Except.error e =>
    { outcome := Except.error e, cache := cache0,
      actionCalls := [locator :: restArgs], healCalls := [] }

/-- `try_with_healing` (`ai_self_heal.py` lines 70-159): defensive swap,
callable check, then dispatch on the argument shape — no arguments (direct
call), a URL first argument (navigation, failures propagate), otherwise a
locator-based action with cache resolution and self-healing.  `retries` is
the keyword parameter of the source (default 1); as explained at
`attemptWithHeal`, for any `retries ≥ 0` the attempt loop's body runs
exactly once, so the result does not depend on it. -/
def try_with_healing (model page : PWObject) (cap : ActionCap)
    (args : List String) (retries : Nat)
    (cache0 : List (String × String)) : HealResult :=
  if cap.callable = false then
    { outcome := Except.error (PyErr.valueError "action_func is not callable"),
      cache := cache0, actionCalls := [], healCalls := [] }
  else
    match args with
    | [] =>
      { outcome := cap.call 0 [], cache := cache0,
        actionCalls := [[]], healCalls := [] }
    | first :: restArgs =>
      if pyStartsWith first "http://" || pyStartsWith first "https://" then
        { outcome := cap.call 0 (first :: restArgs), cache := cache0,
          actionCalls := [first :: restArgs], healCalls := [] }
      else
        attemptWithHeal (swapIfNeeded model page).1 (swapIfNeeded model page).2
          cap ((cache0.lookup first).getD first) restArgs cache0

/-! ## DOM fallback resolver: port of `fallback_locator_list`
(`ai_core/ai_agent.py` lines 141-216)

`page.query` models `page.locator(sel).all_text_contents()`; the result
records the collected text contents, the locator strings queried in order,
and the locators passed to `heal_locator` (the suggestion-source round
trips).  Logging is not modelled.
-/

/-- Result of one `fallback_locator_list` call. -/
structure FallbackResult where
  items : List String
  queried : List String
  healCalls : List String
deriving Repr, DecidableEq

/-- `common_patterns` of strategy 3 (`ai_agent.py` lines 183-189). -/
def common_patterns : List String :=
  ["div.productinfo p", "div.product-information p", "div.product p",
   "div.item p", "p"]

/-- `re.sub(r":has\([^\)]*\)", "", s)`: strip `:has(...)` pseudo
selectors. -/
def matchHasPseudo : Matcher := fun _ s =>
  (litS ":has(" s).bind fun r1 =>
  (litS ")" (r1.dropWhile (fun c => c ≠ ')'))).map fun rest => ([], rest)

/-- `re.sub(r"\s{2,}", " ", s)`: collapse runs of two or more whitespace
characters to a single space. -/
def matchMultiSpace : Matcher := fun _ s =>
  match s with
  | c :: d :: rest =>
    if isPySpace c && isPySpace d then
      some ([' '], rest.dropWhile isPySpace)
    else none
  | _ => none

/-- `re.sub(r"\.[A-Za-z0-9_-]+", "", s)`: strip class qualifiers. -/
def matchClassTok : Matcher := fun _ s =>
  (litS "." s).bind fun r1 =>
  (runPlus (fun c => isAsciiWord c || c = '-') r1).map fun pr => ([], pr.2)

/-- Strip `:has(...)` pseudo selectors from a locator string. -/
def stripHas (s : String) : String := pySub matchHasPseudo s

/-- Collapse whitespace runs in a locator string. -/
def collapseWs (s : String) : String := pySub matchMultiSpace s

/-- Strip class qualifiers from a locator string. -/
def stripClasses (s : String) : String := pySub matchClassTok s

/-- Strategy 4 of `fallback_locator_list` (`ai_agent.py` lines 199-213,
plus the final `return []`): if a model was provided, snapshot the page
HTML (a raising `page.content()` aborts the strategy), ask `heal_locator`
for a suggestion and query it once; any failure or empty result yields the
empty collection. -/
def fallbackStage4 (page : PWObject) (locatorStr : String)
    (model : Option PWObject) : FallbackResult :=
  match model with
  | none => { items := [], queried := [], healCalls := [] }
  | some m =>
    match page.contentResult with
    | none => { items := [], queried := [], healCalls := [] }
    | some html =>
      match heal_locator page locatorStr "bulk-list" html m with
      | none => { items := [], queried := [], healCalls := [locatorStr] }
      | some suggested =>
        match page.query suggested with
        | Except.ok items =>
          if items.isEmpty then
            { items := [], queried := [suggested], healCalls := [locatorStr] }
          else
            { items := items, queried := [suggested], healCalls := [locatorStr] }
        | Except.error _ =>
          { items := [], queried := [suggested], healCalls := [locatorStr] }

/-- Query a list of candidate locators in order, stopping at the first
non-empty result; raising or empty queries continue to the next candidate.
Returns the first non-empty result (if any) and the locators queried. -/
def queryChain (page : PWObject) : List String → Option (List String) × List String
  | [] => (none, [])
  | l :: ls =>
    match page.query l with
    | Except.ok items =>
      if items.isEmpty then
        ((queryChain page ls).1, l :: (queryChain page ls).2)
      else (some items, [l])
    | Except.error _ => ((queryChain page ls).1, l :: (queryChain page ls).2)

/-- Strategy 3 of `fallback_locator_list` (`ai_agent.py` lines 190-197):
the `for pat in common_patterns` loop, each pattern queried inside its own
`try`, returning the first non-empty result. -/
def fallbackStage3 (page : PWObject) (locatorStr : String)
    (model : Option PWObject) : FallbackResult :=
  match queryChain page common_patterns with
  | (some items, q) => { items := items, queried := q, healCalls := [] }
  | (none, q) =>
    let r := fallbackStage4 page locatorStr model
    { items := r.items, queried := q ++ r.queried, healCalls := r.healCalls }

/-- Strategy 2 of `fallback_locator_list` (`ai_agent.py` lines 170-180):
the simplified locator — class qualifiers stripped from
`cleaned or locator_str`, whitespace collapsed, then stripped. -/
def simplifiedLocator (locatorStr cleaned : String) : String :=
  pyStrip (collapseWs (stripClasses (if cleaned = "" then locatorStr else cleaned)))

/-- Strategy 2 of `fallback_locator_list` (`ai_agent.py` lines 170-180):
query the simplified locator only when it is nonempty and differs from the
original locator string. -/
def fallbackStage2 (page : PWObject) (locatorStr cleaned : String)
    (model : Option PWObject) : FallbackResult :=
  if simplifiedLocator locatorStr cleaned ≠ "" ∧
      simplifiedLocator locatorStr cleaned ≠ locatorStr then
    match page.query (simplifiedLocator locatorStr cleaned) with
    | Except.ok items =>
      if items.isEmpty then
        { items := (fallbackStage3 page locatorStr model).items,
          queried := simplifiedLocator locatorStr cleaned ::
            (fallbackStage3 page locatorStr model).queried,
          healCalls := (fallbackStage3 page locatorStr model).healCalls }
      else
        { items := items, queried := [simplifiedLocator locatorStr cleaned],
          healCalls := [] }
    | Except.error _ =>
      { items := (fallbackStage3 page locatorStr model).items,
        queried := simplifiedLocator locatorStr cleaned ::
          (fallbackStage3 page locatorStr model).queried,
        healCalls := (fallbackStage3 page locatorStr model).healCalls }
  else fallbackStage3 page locatorStr model

/-- Strategy 1 of `fallback_locator_list` (`ai_agent.py` lines 159-168):
the cleaned locator — `:has(...)` pseudo selectors stripped, whitespace
collapsed, then stripped. -/
def cleanedLocator (locatorStr : String) : String :=
  pyStrip (collapseWs (stripHas locatorStr))

/-- Strategy 1 of `fallback_locator_list` (`ai_agent.py` lines 159-168):
query the cleaned locator only when it is nonempty and differs from the
locator string. -/
def fallbackStage1 (page : PWObject) (locatorStr : String)
    (model : Option PWObject) : FallbackResult :=
  if cleanedLocator locatorStr ≠ "" ∧ cleanedLocator locatorStr ≠ locatorStr then
    match page.query (cleanedLocator locatorStr) with
    | Except.ok items =>
      if items.isEmpty then
        { items := (fallbackStage2 page locatorStr (cleanedLocator locatorStr) model).items,
          queried := cleanedLocator locatorStr ::
            (fallbackStage2 page locatorStr (cleanedLocator locatorStr) model).queried,
          healCalls := (fallbackStage2 page locatorStr (cleanedLocator locatorStr) model).healCalls }
      else
        { items := items, queried := [cleanedLocator locatorStr], healCalls := [] }
    | Except.error _ =>
      { items := (fallbackStage2 page locatorStr (cleanedLocator locatorStr) model).items,
        queried := cleanedLocator locatorStr ::
          (fallbackStage2 page locatorStr (cleanedLocator locatorStr) model).queried,
        healCalls := (fallbackStage2 page locatorStr (cleanedLocator locatorStr) model).healCalls }
  else fallbackStage2 page locatorStr (cleanedLocator locatorStr) model

/-- `fallback_locator_list` (`ai_agent.py` lines 141-216): the exact
locator first (inside `try`), then the relaxation strategies in order. -/
def fallback_locator_list (page : PWObject) (locatorStr : String)
    (model : Option PWObject) : FallbackResult :=
  match page.query locatorStr with
  | Except.ok items =>
    if items.isEmpty then
      { items := (fallbackStage1 page locatorStr model).items,
        queried := locatorStr :: (fallbackStage1 page locatorStr model).queried,
        healCalls := (fallbackStage1 page locatorStr model).healCalls }
    else
      { items := items, queried := [locatorStr], healCalls := [] }
  | Except.error _ =>
    { items := (fallbackStage1 page locatorStr model).items,
      queried := locatorStr :: (fallbackStage1 page locatorStr model).queried,
      healCalls := (fallbackStage1 page locatorStr model).healCalls }

/-- Modelled from the spec (FallbackLocatorChain, section 4.4), last
strategy: the at most one suggestion-source candidate, present when a
model was supplied, the page snapshot is available and the resolver
produced a suggestion. -/
def suggCandidate (page : PWObject) (locatorStr : String)
    (model : Option PWObject) : List String :=
  match model with
  | none => []
  | some m =>
    match page.contentResult with
    | none => []
    | some html => (heal_locator page locatorStr "bulk-list" html m).toList

/-- Modelled from the spec: candidates from strategy 2 on — the
class-stripped locator (when nonempty and different from the original),
then the fixed structural guesses, then the suggestion-source candidate. -/
def stage2Cands (page : PWObject) (locatorStr cleaned : String)
    (model : Option PWObject) : List String :=
  (if simplifiedLocator locatorStr cleaned ≠ "" ∧
      simplifiedLocator locatorStr cleaned ≠ locatorStr
   then [simplifiedLocator locatorStr cleaned] else [])
    ++ common_patterns ++ suggCandidate page locatorStr model

/-- Modelled from the spec: candidates from strategy 1 on — the
pseudo-selector-stripped locator (when nonempty and different from the
original), then the later strategies. -/
def stage1Cands (page : PWObject) (locatorStr : String)
    (model : Option PWObject) : List String :=
  (if cleanedLocator locatorStr ≠ "" ∧ cleanedLocator locatorStr ≠ locatorStr
   then [cleanedLocator locatorStr] else [])
    ++ stage2Cands page locatorStr (cleanedLocator locatorStr) model

/-- Modelled from the spec (FallbackLocatorChain, section 4.4): the ordered
candidate locators of the fallback chain — the exact locator as given; the
pseudo-selector-stripped locator; the class-stripped locator; the fixed
structural guesses; one suggestion-source candidate. -/
def fallbackCandidates (page : PWObject) (locatorStr : String)
    (model : Option PWObject) : List String :=
  locatorStr :: stage1Cands page locatorStr model

/-! ## Generated-source replay: `AIAgent.generate_source_if_missing`
(`ai_core/ai_agent.py` lines 368-502)

The file system is modelled by the list of existing file paths; file
contents are not modelled (no claim depends on them).  The regeneration
branch is represented by its observable effects only: exactly one
suggestion-source call is made (`self.model.generate_content(prompt)`,
line 412) and the file at the computed path is written (line 500); the
prompt construction, response normalization and indentation repair that
produce the written text are not modelled.
-/

/-- Result of `generate_source_if_missing`: the returned
`(file_path, created)` pair, the number of suggestion-source calls made,
and the file system afterwards. -/
structure GenSrcResult where
  filePath : String
  created : Bool
  generateCalls : Nat
  files : List String
deriving Repr, DecidableEq

/-- `re.sub(r"[^A-Za-z0-9_]", "_", test_name)` (`ai_agent.py` line 380):
a single-character class substitution, i.e. a character map. -/
def safeName (testName : String) : String :=
  String.mk (testName.data.map (fun c => if isAsciiWord c then c else '_'))

/-- `generate_source_if_missing` (`ai_agent.py` lines 368-502): compute
`<src_dir>/<safe_name>.py`; if the file exists, return it with
`created = False` and no suggestion-source call; otherwise call the
suggestion source once, write the file and return `created = True`. -/
def generate_source_if_missing (files : List String) (srcDir : String)
    (model : PWObject) (task : String) (testName : String) : GenSrcResult :=
  let filePath := srcDir ++ "/" ++ safeName testName ++ ".py"
  if files.contains filePath then
    { filePath := filePath, created := false, generateCalls := 0, files := files }
  else
    { filePath := filePath, created := true, generateCalls := 1,
      files := filePath :: files }

/-! ## Concrete instances used by the closed theorems below -/

/-- Counterexample input for the idempotence of `validate_final_code`: the
visibility-argument strip leaves the trailing parenthesis dangling. -/
def cOneInput : String := "expect(page.locator(a)).to_be_visible(b))"

/-- Counterexample input for the closed assertion vocabulary: the
placeholder rewrite of `sanitize_assertions` introduces
`to_have_attribute`. -/
def cFourInput : String := "expect(x).to_be_visible('placeholder', 'hi')"

/-- A concrete page object: it has a `locator` attribute, its
`page.content()` succeeds, and every element query raises the
locator-resolution error. -/
def wPage : PWObject :=
  { hasLocator := true,
    contentResult := some "<html><body></body></html>",
    generate := fun _ => none,
    query := fun _ => Except.error (PyErr.playwright "no such element") }

/-- A concrete model object whose suggestion source raises. -/
def wModelNone : PWObject :=
  { hasLocator := false,
    contentResult := none,
    generate := fun _ => none,
    query := fun _ => Except.ok [] }

/-- A concrete model object that always suggests `a.login-link`. -/
def wModelSuggest : PWObject :=
  { hasLocator := false,
    contentResult := none,
    generate := fun _ => some "a.login-link",
    query := fun _ => Except.ok [] }

/-- An action capability that fails with a non-Playwright error. -/
def wCapOther : ActionCap :=
  { callable := true, name := "click",
    call := fun _ _ => Except.error (PyErr.other "network down") }

/-- An action capability that always fails with the locator-resolution
error class. -/
def wCapPW : ActionCap :=
  { callable := true, name := "click",
    call := fun _ _ => Except.error (PyErr.playwright "element not found") }

/-- An action capability that always succeeds. -/
def wCapOk : ActionCap :=
  { callable := true, name := "click",
    call := fun _ _ => Except.ok "done" }

/-! ## Claim C1: idempotence of the normalizer -/

/-- C1 counterexample: `validate_final_code` is not idempotent.  On the
input `expect(page.locator(a)).to_be_visible(b))` the first pass rewrites
the visibility assertion and leaves a dangling right parenthesis, which
the second pass consumes, so applying the normalizer twice differs from
applying it once. -/
theorem validate_final_code_not_idempotent :
    validate_final_code (validate_final_code cOneInput) ≠
      validate_final_code cOneInput := by
  decide

/-- C1 (amended): the normalizer is not idempotent — when the
visibility-argument rewrite applies next to an unbalanced right
parenthesis, the second application strips the parenthesis the first one
left behind; on this input the output stabilizes from the second
application on. -/
theorem validate_final_code_second_pass_differs :
    validate_final_code cOneInput = "expect(page.locator(a)).to_be_visible())" ∧
    validate_final_code (validate_final_code cOneInput) =
      "expect(page.locator(a)).to_be_visible()" ∧
    validate_final_code (validate_final_code (validate_final_code cOneInput)) =
      validate_final_code (validate_final_code cOneInput) := by
  refine ⟨by decide, by decide, by decide⟩

/-! ## Claim C4: closed assertion vocabulary -/

/-- C4 counterexample: the output of `sanitize_assertions` can contain an
applied assertion name outside `ALLOWED_ASSERTIONS` — the placeholder
rewrite introduces `to_have_attribute`, which is not in the allow-list. -/
theorem sanitize_assertions_emits_disallowed_name :
    "to_have_attribute" ∈ appliedAssertionNamesStr (sanitize_assertions cFourInput) ∧
    "to_have_attribute" ∉ ALLOWED_ASSERTIONS := by
  decide

/-- C4 (amended): every assertion-like name (starting with `to_`) that the
sanitizer's collapse rule processes is mapped into the allow-list — an
unknown `to_`-name becomes `to_be_visible` — but the full output may still
contain assertion names outside the allow-list, introduced by the
placeholder rewrite. -/
theorem checkUnknown_lands_in_allowlist (name : String)
    (h : pyStartsWith name "to_" = true) :
    checkUnknown name ∈ ALLOWED_ASSERTIONS := by
  unfold checkUnknown
  split
  · next hc => exact List.elem_iff.mp hc
  · decide

/-- Witness for `checkUnknown_lands_in_allowlist` at the unknown assertion
name `to_wiggle`. -/
theorem checkUnknown_lands_in_allowlist_witness :
    checkUnknown "to_wiggle" ∈ ALLOWED_ASSERTIONS :=
  checkUnknown_lands_in_allowlist "to_wiggle" (by decide)

/-! ## Claim C8: the healing resolver never raises -/

/-- C8: `heal_locator` is total and returns either a non-empty suggestion
or `none`; in particular a raising suggestion source (modelled by
`generate` returning `none`) yields `none` rather than an exception. -/
theorem heal_locator_never_empty (page : PWObject)
    (failedLocator action contextHtml : String) (model : PWObject) :
    heal_locator page failedLocator action contextHtml model ≠ some "" ∧
    (model.generate (heal_prompt failedLocator action (pyTake contextHtml 4000)) = none →
      heal_locator page failedLocator action contextHtml model = none) := by
  constructor
  · unfold heal_locator
    split
    · exact fun h => Option.noConfusion h
    · dsimp only
      split
      · exact fun h => Option.noConfusion h
      · next hne => exact fun h => hne (Option.some.inj h)
  · intro hg
    unfold heal_locator
    rw [hg]

/-- Witness for `heal_locator_never_empty`: a raising suggestion source
makes `heal_locator` return `none`. -/
theorem heal_locator_never_empty_witness :
    heal_locator wPage "#old" "click" "<html></html>" wModelNone = none := by
  have h := heal_locator_never_empty wPage "#old" "click" "<html></html>" wModelNone
  exact h.2 rfl

/-! ## Claim C9: generated-source replay -/

/-- C9: when the generated source file for a task already exists,
`generate_source_if_missing` returns its path with `created = False`, makes
no suggestion-source call and leaves the file system unchanged. -/
theorem generate_source_if_missing_replays (files : List String)
    (srcDir : String) (model : PWObject) (task testName : String)
    (h : files.contains (srcDir ++ "/" ++ safeName testName ++ ".py") = true) :
    generate_source_if_missing files srcDir model task testName =
      { filePath := srcDir ++ "/" ++ safeName testName ++ ".py",
        created := false, generateCalls := 0, files := files } := by
  unfold generate_source_if_missing
  rw [if_pos h]

/-- Witness for `generate_source_if_missing_replays` at an existing
generated source file. -/
theorem generate_source_if_missing_replays_witness :
    generate_source_if_missing ["ai_tests/src/login_flow.py"] "ai_tests/src"
      wModelNone "steps" "login flow" =
      { filePath := "ai_tests/src/login_flow.py", created := false,
        generateCalls := 0, files := ["ai_tests/src/login_flow.py"] } := by
  have h := generate_source_if_missing_replays ["ai_tests/src/login_flow.py"]
    "ai_tests/src" wModelNone "steps" "login flow" (by decide)
  exact h.trans (by decide)

/-! ## Claim C10: swapped-argument invariance -/

/-- C10: when the second argument has a `locator` attribute and the first
does not, `try_with_healing` behaves identically however the two are
ordered — the defensive swap normalizes both calls to the same (model,
page) pair before any dispatch. -/
theorem try_with_healing_swap_invariant (m p : PWObject) (cap : ActionCap)
    (args : List String) (retries : Nat) (cache0 : List (String × String))
    (hp : p.hasLocator = true) (hm : m.hasLocator = false) :
    try_with_healing m p cap args retries cache0 =
      try_with_healing p m cap args retries cache0 := by
  unfold try_with_healing
  have e1 : swapIfNeeded m p = (m, p) := by
    unfold swapIfNeeded
    rw [hm]
    simp
  have e2 : swapIfNeeded p m = (m, p) := by
    unfold swapIfNeeded
    rw [hp, hm]
    simp
  rw [e1, e2]

/-- Witness for `try_with_healing_swap_invariant` at concrete objects. -/
theorem try_with_healing_swap_invariant_witness :
    try_with_healing wModelNone wPage wCapOther ["#btn"] 1 [] =
      try_with_healing wPage wModelNone wCapOther ["#btn"] 1 [] :=
  try_with_healing_swap_invariant wModelNone wPage wCapOther ["#btn"] 1 [] rfl rfl

/-! ## Claim C2: bounded retries -/

/-- The healed-retry loop makes at most `n` underlying calls. -/
theorem healedRetryLoop_calls_le (cap : ActionCap) (newLoc : String)
    (remaining : List String) :
    ∀ (n startIdx : Nat),
      ((healedRetryLoop cap newLoc remaining startIdx n).2).length ≤ n := by
  intro n
  induction n with
  | zero => intro startIdx; simp [healedRetryLoop]
  | succ k ih =>
    intro startIdx
    unfold healedRetryLoop
    split
    · simp
    · simp only [List.length_cons]
      exact Nat.succ_le_succ (ih (startIdx + 1))
    · simp

/-- The locator branch makes at most `1 + MAX_HEAL_RETRIES` underlying
calls. -/
theorem attemptWithHeal_calls_le (model page : PWObject) (cap : ActionCap)
    (locator : String) (restArgs : List String)
    (cache0 : List (String × String)) :
    ((attemptWithHeal model page cap locator restArgs cache0).actionCalls).length ≤
      1 + MAX_HEAL_RETRIES := by
  unfold attemptWithHeal
  split
  · simp
  · split
    · simp
    · split
      · simp
      · rename_i newLoc heq2 hne
        simp only [List.length_cons]
        have hle := healedRetryLoop_calls_le cap newLoc restArgs MAX_HEAL_RETRIES 1
        omega
  · simp

/-- C2: one invocation of `try_with_healing` makes at most
`1 + retries + MAX_HEAL_RETRIES` calls to the underlying action capability
(in fact at most `1 + MAX_HEAL_RETRIES`: the attempt loop's body always
returns or raises on its first iteration); in particular no invocation
retries unboundedly. -/
theorem try_with_healing_attempt_bound (model page : PWObject)
    (cap : ActionCap) (args : List String) (retries : Nat)
    (cache0 : List (String × String)) :
    ((try_with_healing model page cap args retries cache0).actionCalls).length ≤
      1 + retries + MAX_HEAL_RETRIES := by
  unfold try_with_healing
  split
  · simp
  · split
    · simp [MAX_HEAL_RETRIES]
    · split
      · simp [MAX_HEAL_RETRIES]
      · rename_i first restArgs hurl
        have h := attemptWithHeal_calls_le (swapIfNeeded model page).1
          (swapIfNeeded model page).2 cap ((cache0.lookup first).getD first)
          restArgs cache0
        omega

/-! ## Claim C3: only locator-resolution errors trigger healing -/

/-- C3: a non-Playwright error from the underlying call propagates
unchanged, with no suggestion-source round trip, a single underlying call
and an unchanged cache; and conversely, whenever an invocation performs a
suggestion-source round trip, the dispatched call failed with the
locator-resolution (Playwright) error class. -/
theorem try_with_healing_nonlocator_propagates :
    (∀ (model page : PWObject) (cap : ActionCap) (first : String)
       (restArgs : List String) (retries : Nat)
       (cache0 : List (String × String)) (msg : String),
       cap.callable = true →
       pyStartsWith first "http://" = false →
       pyStartsWith first "https://" = false →
       cap.call 0 (((cache0.lookup first).getD first) :: restArgs) =
         Except.error (PyErr.other msg) →
       (try_with_healing model page cap (first :: restArgs) retries cache0).outcome =
           Except.error (PyErr.other msg) ∧
       (try_with_healing model page cap (first :: restArgs) retries cache0).healCalls = [] ∧
       (try_with_healing model page cap (first :: restArgs) retries cache0).actionCalls =
           [((cache0.lookup first).getD first) :: restArgs] ∧
       (try_with_healing model page cap (first :: restArgs) retries cache0).cache = cache0) ∧
    (∀ (model page : PWObject) (cap : ActionCap) (args : List String)
       (retries : Nat) (cache0 : List (String × String)),
       (try_with_healing model page cap args retries cache0).healCalls ≠ [] →
       ∃ first restArgs msg, args = first :: restArgs ∧
         cap.call 0 (((cache0.lookup first).getD first) :: restArgs) =
           Except.error (PyErr.playwright msg)) := by
  constructor
  · intro model page cap first restArgs retries cache0 msg hc h1 h2 hcall
    simp [try_with_healing, attemptWithHeal, hc, h1, h2, hcall]
  · intro model page cap args retries cache0 h
    unfold try_with_healing at h
    split at h
    · simp at h
    · split at h
      · simp at h
      · split at h
        · simp at h
        · unfold attemptWithHeal at h
          split at h
          · simp at h
          · next msg heq =>
            next =>
              refine ⟨_, _, msg, rfl, heq⟩
          · simp at h

/-- Witness for `try_with_healing_nonlocator_propagates`: a network-style
error propagates unchanged and no healing happens. -/
theorem try_with_healing_nonlocator_propagates_witness :
    (try_with_healing wModelNone wPage wCapOther ["#btn"] 1 []).outcome =
        Except.error (PyErr.other "network down") ∧
    (try_with_healing wModelNone wPage wCapOther ["#btn"] 1 []).healCalls = [] := by
  have h := try_with_healing_nonlocator_propagates.1 wModelNone wPage wCapOther
    "#btn" [] 1 [] "network down" rfl (by decide) (by decide) rfl
  exact ⟨h.1, h.2.1⟩

/-! ## Claim C5: exhausted healing re-raises and leaves the cache alone -/

/-- C5: after a locator-resolution failure, if the suggestion source
yields no suggestion or a suggestion equal to the failing (cache-resolved)
locator, `try_with_healing` re-raises the original error and the persisted
cache is unchanged; exactly one suggestion round trip was made. -/
theorem try_with_healing_exhausted_preserves_cache
    (model page : PWObject) (cap : ActionCap) (first : String)
    (restArgs : List String) (retries : Nat)
    (cache0 : List (String × String)) (msg : String)
    (hm : model.hasLocator = false)
    (hc : cap.callable = true)
    (h1 : pyStartsWith first "http://" = false)
    (h2 : pyStartsWith first "https://" = false)
    (hcall : cap.call 0 (((cache0.lookup first).getD first) :: restArgs) =
      Except.error (PyErr.playwright msg))
    (hsugg : heal_locator page ((cache0.lookup first).getD first) cap.name
        ((page.contentResult).getD "") model = none ∨
      heal_locator page ((cache0.lookup first).getD first) cap.name
        ((page.contentResult).getD "") model =
          some ((cache0.lookup first).getD first)) :
    (try_with_healing model page cap (first :: restArgs) retries cache0).outcome =
        Except.error (PyErr.playwright msg) ∧
    (try_with_healing model page cap (first :: restArgs) retries cache0).cache = cache0 ∧
    (try_with_healing model page cap (first :: restArgs) retries cache0).healCalls =
        [((cache0.lookup first).getD first)] := by
  have hswap : swapIfNeeded model page = (model, page) := by
    unfold swapIfNeeded
    rw [hm]
    simp
  rcases hsugg with hs | hs
  · simp [try_with_healing, attemptWithHeal, hc, h1, h2, hswap, hcall, hs]
  · simp [try_with_healing, attemptWithHeal, hc, h1, h2, hswap, hcall, hs]

/-- Witness for `try_with_healing_exhausted_preserves_cache`: the
suggestion source raises, so healing is exhausted; the cache is left
empty. -/
theorem try_with_healing_exhausted_preserves_cache_witness :
    (try_with_healing wModelNone wPage wCapPW ["#old"] 1 []).outcome =
        Except.error (PyErr.playwright "element not found") ∧
    (try_with_healing wModelNone wPage wCapPW ["#old"] 1 []).cache = [] ∧
    (try_with_healing wModelNone wPage wCapPW ["#old"] 1 []).healCalls = ["#old"] := by
  have h := try_with_healing_exhausted_preserves_cache wModelNone wPage wCapPW
    "#old" [] 1 [] "element not found" rfl rfl (by decide) (by decide) rfl
    (Or.inl rfl)
  exact h

/-! ## Claim C6: cache consultation -/

/-- C6 counterexample: a suggestion-source round trip is made even though
the cache already holds a mapping for the original locator — the cached
healed locator is dispatched, it fails with the locator-resolution error,
and `heal_locator` is consulted for it. -/
theorem cached_mapping_still_roundtrips :
    [("a", "b")].lookup "a" = some "b" ∧
    (try_with_healing wModelSuggest wPage wCapPW ["a"] 1 [("a", "b")]).healCalls =
      ["b"] := by
  constructor
  · decide
  · decide

/-- C6 (amended): when the persisted cache holds a mapping for the original
string locator, the cached healed locator is used in place of the original
for dispatch; when that dispatch succeeds, no suggestion-source round trip
is made and the cache is unchanged.  (If the cached locator itself fails
with a locator-resolution error, the suggestion source is consulted, as the
counterexample shows.)  The mapping consulted is the current, most recently
written one. -/
theorem try_with_healing_uses_cached_locator
    (model page : PWObject) (cap : ActionCap) (first healed : String)
    (restArgs : List String) (retries : Nat)
    (cache0 : List (String × String))
    (hm : model.hasLocator = false)
    (hc : cap.callable = true)
    (h1 : pyStartsWith first "http://" = false)
    (h2 : pyStartsWith first "https://" = false)
    (hlk : cache0.lookup first = some healed) :
    ((try_with_healing model page cap (first :: restArgs) retries cache0).actionCalls).head? =
        some (healed :: restArgs) ∧
    (∀ v, cap.call 0 (healed :: restArgs) = Except.ok v →
      (try_with_healing model page cap (first :: restArgs) retries cache0).healCalls = [] ∧
      (try_with_healing model page cap (first :: restArgs) retries cache0).outcome =
          Except.ok v ∧
      (try_with_healing model page cap (first :: restArgs) retries cache0).cache = cache0) := by
  have hswap : swapIfNeeded model page = (model, page) := by
    unfold swapIfNeeded
    rw [hm]
    simp
  have hred : try_with_healing model page cap (first :: restArgs) retries cache0 =
      attemptWithHeal model page cap healed restArgs cache0 := by
    simp [try_with_healing, hc, h1, h2, hswap, hlk]
  constructor
  · rw [hred]
    unfold attemptWithHeal
    split
    · simp
    · split
      · simp
      · split
        · simp
        · simp
    · simp
  · intro v hv
    rw [hred]
    simp [attemptWithHeal, hv]

/-- Witness for `try_with_healing_uses_cached_locator`: the cached healed
locator is dispatched and succeeds; no suggestion round trip occurs. -/
theorem try_with_healing_uses_cached_locator_witness :
    ((try_with_healing wModelNone wPage wCapOk ["#old"] 1
        [("#old", "a.healed")]).actionCalls).head? = some ["a.healed"] ∧
    (try_with_healing wModelNone wPage wCapOk ["#old"] 1
        [("#old", "a.healed")]).healCalls = [] := by
  have h := try_with_healing_uses_cached_locator wModelNone wPage wCapOk
    "#old" "a.healed" [] 1 [("#old", "a.healed")] rfl rfl (by decide)
    (by decide) (by decide)
  exact ⟨h.1, (h.2 "done" rfl).1⟩

/-! ## Claim C7: fallback chain returns the first non-empty result -/

/-- Chain step: a non-empty successful query ends the search. -/
theorem queryChain_cons_found (page : PWObject) (l : String)
    (ls its : List String) (hq : page.query l = Except.ok its)
    (he : its.isEmpty = false) :
    queryChain page (l :: ls) = (some its, [l]) := by
  rw [queryChain, hq]
  dsimp only
  rw [if_neg]
  simp [he]

/-- Chain step: an empty successful query continues the search. -/
theorem queryChain_cons_empty (page : PWObject) (l : String)
    (ls its : List String) (hq : page.query l = Except.ok its)
    (he : its.isEmpty = true) :
    queryChain page (l :: ls) =
      ((queryChain page ls).1, l :: (queryChain page ls).2) := by
  rw [queryChain, hq]
  dsimp only
  rw [if_pos he]

/-- Chain step: a raising query continues the search. -/
theorem queryChain_cons_error (page : PWObject) (l : String)
    (ls : List String) (e : PyErr) (hq : page.query l = Except.error e) :
    queryChain page (l :: ls) =
      ((queryChain page ls).1, l :: (queryChain page ls).2) := by
  rw [queryChain, hq]

/-- Appending candidates after a chain that already found a result changes
nothing. -/
theorem queryChain_append_some (page : PWObject) (xs ys items : List String)
    (h : (queryChain page xs).1 = some items) :
    queryChain page (xs ++ ys) = (some items, (queryChain page xs).2) := by
  induction xs with
  | nil => simp [queryChain] at h
  | cons l ls ih =>
    rw [List.cons_append]
    cases hq : page.query l with
    | ok its =>
      cases he : its.isEmpty with
      | true =>
        rw [queryChain_cons_empty page l ls its hq he] at h
        simp at h
        rw [queryChain_cons_empty page l (ls ++ ys) its hq he,
          queryChain_cons_empty page l ls its hq he, ih h]
      | false =>
        rw [queryChain_cons_found page l ls its hq he] at h
        simp at h
        rw [queryChain_cons_found page l (ls ++ ys) its hq he,
          queryChain_cons_found page l ls its hq he, h]
    | error e =>
      rw [queryChain_cons_error page l ls e hq] at h
      simp at h
      rw [queryChain_cons_error page l (ls ++ ys) e hq,
        queryChain_cons_error page l ls e hq, ih h]

/-- Appending candidates after an exhausted chain continues the search. -/
theorem queryChain_append_none (page : PWObject) (xs ys : List String)
    (h : (queryChain page xs).1 = none) :
    queryChain page (xs ++ ys) =
      ((queryChain page ys).1,
        (queryChain page xs).2 ++ (queryChain page ys).2) := by
  induction xs with
  | nil => simp [queryChain]
  | cons l ls ih =>
    rw [List.cons_append]
    cases hq : page.query l with
    | ok its =>
      cases he : its.isEmpty with
      | true =>
        rw [queryChain_cons_empty page l ls its hq he] at h
        simp at h
        rw [queryChain_cons_empty page l (ls ++ ys) its hq he,
          queryChain_cons_empty page l ls its hq he, ih h]
        simp
      | false =>
        rw [queryChain_cons_found page l ls its hq he] at h
        simp at h
    | error e =>
      rw [queryChain_cons_error page l ls e hq] at h
      simp at h
      rw [queryChain_cons_error page l (ls ++ ys) e hq,
        queryChain_cons_error page l ls e hq, ih h]
      simp

/-- Strategy 4 agrees with the first-non-empty search over the
suggestion-source candidate. -/
theorem fallbackStage4_eq (page : PWObject) (loc : String)
    (model : Option PWObject) :
    (fallbackStage4 page loc model).items =
      ((queryChain page (suggCandidate page loc model)).1).getD [] ∧
    (fallbackStage4 page loc model).queried =
      (queryChain page (suggCandidate page loc model)).2 := by
  unfold fallbackStage4 suggCandidate
  cases model with
  | none => simp [queryChain]
  | some m =>
    cases hc : page.contentResult with
    | none => simp [queryChain]
    | some html =>
      cases hh : heal_locator page loc "bulk-list" html m with
      | none => simp [hh, queryChain]
      | some s =>
        simp only [hh, Option.toList_some]
        cases hq : page.query s with
        | ok items =>
          cases he : items.isEmpty with
          | true =>
            rw [queryChain_cons_empty page s [] items hq he]
            simp [queryChain, List.isEmpty_iff.mp he]
          | false =>
            rw [queryChain_cons_found page s [] items hq he]
            simp [he]
        | error e =>
          rw [queryChain_cons_error page s [] e hq]
          simp [queryChain]

/-- Strategy 3 agrees with the first-non-empty search over the structural
guesses followed by the suggestion-source candidate. -/
theorem fallbackStage3_eq (page : PWObject) (loc : String)
    (model : Option PWObject) :
    (fallbackStage3 page loc model).items =
      ((queryChain page (common_patterns ++ suggCandidate page loc model)).1).getD [] ∧
    (fallbackStage3 page loc model).queried =
      (queryChain page (common_patterns ++ suggCandidate page loc model)).2 := by
  unfold fallbackStage3
  cases ho : (queryChain page common_patterns).1 with
  | some items =>
    rw [queryChain_append_some page _ _ items ho]
    cases hq : queryChain page common_patterns with
    | mk o q =>
      rw [hq] at ho
      simp only at ho
      subst ho
      simp
  | none =>
    rw [queryChain_append_none page _ _ ho]
    cases hq : queryChain page common_patterns with
    | mk o q =>
      rw [hq] at ho
      simp only at ho
      subst ho
      have h4 := fallbackStage4_eq page loc model
      simp [h4.1, h4.2]

/-- Strategy 2 agrees with the first-non-empty search over its candidate
list. -/
theorem fallbackStage2_eq (page : PWObject) (loc cleaned : String)
    (model : Option PWObject) :
    (fallbackStage2 page loc cleaned model).items =
      ((queryChain page (stage2Cands page loc cleaned model)).1).getD [] ∧
    (fallbackStage2 page loc cleaned model).queried =
      (queryChain page (stage2Cands page loc cleaned model)).2 := by
  unfold fallbackStage2 stage2Cands
  by_cases hcond : simplifiedLocator loc cleaned ≠ "" ∧
      simplifiedLocator loc cleaned ≠ loc
  · rw [if_pos hcond, if_pos hcond]
    simp only [List.cons_append, List.nil_append]
    cases hq : page.query (simplifiedLocator loc cleaned) with
    | ok items =>
      cases he : items.isEmpty with
      | true =>
        rw [queryChain_cons_empty page _ _ items hq he]
        have h3 := fallbackStage3_eq page loc model
        simp [List.isEmpty_iff.mp he, h3.1, h3.2]
      | false =>
        rw [queryChain_cons_found page _ _ items hq he]
        simp [he]
    | error e =>
      rw [queryChain_cons_error page _ _ e hq]
      have h3 := fallbackStage3_eq page loc model
      simp [h3.1, h3.2]
  · rw [if_neg hcond, if_neg hcond]
    simp only [List.nil_append]
    exact fallbackStage3_eq page loc model

/-- Strategy 1 agrees with the first-non-empty search over its candidate
list. -/
theorem fallbackStage1_eq (page : PWObject) (loc : String)
    (model : Option PWObject) :
    (fallbackStage1 page loc model).items =
      ((queryChain page (stage1Cands page loc model)).1).getD [] ∧
    (fallbackStage1 page loc model).queried =
      (queryChain page (stage1Cands page loc model)).2 := by
  unfold fallbackStage1 stage1Cands
  by_cases hcond : cleanedLocator loc ≠ "" ∧ cleanedLocator loc ≠ loc
  · rw [if_pos hcond, if_pos hcond]
    simp only [List.cons_append, List.nil_append]
    cases hq : page.query (cleanedLocator loc) with
    | ok items =>
      cases he : items.isEmpty with
      | true =>
        rw [queryChain_cons_empty page _ _ items hq he]
        have h2 := fallbackStage2_eq page loc (cleanedLocator loc) model
        simp [List.isEmpty_iff.mp he, h2.1, h2.2]
      | false =>
        rw [queryChain_cons_found page _ _ items hq he]
        simp [he]
    | error e =>
      rw [queryChain_cons_error page _ _ e hq]
      have h2 := fallbackStage2_eq page loc (cleanedLocator loc) model
      simp [h2.1, h2.2]
  · rw [if_neg hcond, if_neg hcond]
    simp only [List.nil_append]
    exact fallbackStage2_eq page loc (cleanedLocator loc) model

/-- C7: `fallback_locator_list` returns exactly the result of querying the
spec's ordered candidate locators and stopping at the first non-empty
text-content list (empty when every strategy is exhausted, and the
function is total, so it never raises), and the locators it queries are
exactly the candidates up to and including the successful one — later
strategies are not evaluated. -/
theorem fallback_locator_list_first_non_empty (page : PWObject)
    (locatorStr : String) (model : Option PWObject) :
    (fallback_locator_list page locatorStr model).items =
      ((queryChain page (fallbackCandidates page locatorStr model)).1).getD [] ∧
    (fallback_locator_list page locatorStr model).queried =
      (queryChain page (fallbackCandidates page locatorStr model)).2 := by
  unfold fallback_locator_list fallbackCandidates
  cases hq : page.query locatorStr with
  | ok items =>
    cases he : items.isEmpty with
    | true =>
      rw [queryChain_cons_empty page _ _ items hq he]
      have h1 := fallbackStage1_eq page locatorStr model
      simp [List.isEmpty_iff.mp he, h1.1, h1.2]
    | false =>
      rw [queryChain_cons_found page _ _ items hq he]
      simp [he]
  | error e =>
    rw [queryChain_cons_error page _ _ e hq]
    have h1 := fallbackStage1_eq page locatorStr model
    simp [h1.1, h1.2]
